import Mathlib

/-!
Shallow embedding of the vibanalyz audit-pipeline core
(`src/vibanalyz/domain/{models,scoring}.py`,
`src/vibanalyz/services/{pipeline,reporting}.py`,
`src/vibanalyz/services/tasks/{generate_sbom,scan_vulnerabilities}.py`,
and the identical copies in `round_2/.../extract_report_data.py`),
followed by theorems checking the natural-language specification.

Python `str` values that may be absent or `None` are modelled as
`Option String`; Python truthiness on strings (`if s:`) is the conjunction
`isSome ∧ ≠ ""`.  Python `set`s are `Finset String`; where the source
iterates over a set, the embedding fixes a concrete enumeration
(first-occurrence order or a sort) — all quantities derived from such an
iteration (maxima, unions, cardinalities) are order-independent.
The scanner invocations (Syft/Grype subprocesses) are out of scope of the
core; a task's interaction with them is modelled by passing the tool
outcome as an explicit parameter.
-/

namespace Vibanalyz

/-! ### Data model (`domain/models.py`) -/

structure PackageMetadata where
  name : String
  version : Option String := none
  summary : Option String := none
  maintainers : Option (List String) := none
  home_page : Option String := none
  requires_dist : Option (List String) := none
  author : Option String := none
  license : Option String := none
  release_count : Option Nat := none
deriving DecidableEq, Repr

structure DownloadInfo where
  url : String
  filename : String
  package_type : String
  local_path : Option String := none
deriving DecidableEq, Repr

/-- One entry of a CycloneDX `components` array (the fields the core reads). -/
structure SbomComponent where
  bom_ref : Option String := none
  type : Option String := none
  name : Option String := none
  version : Option String := none
  purl : Option String := none
deriving DecidableEq, Repr

/-- One entry of a CycloneDX `dependencies` array: edge `ref → dependsOn`. -/
structure SbomDependency where
  ref : Option String := none
  dependsOn : List String := []
deriving DecidableEq, Repr

/-- Raw SBOM structure (`sbom_data` dict). -/
structure SbomData where
  components : List SbomComponent := []
  dependencies : List SbomDependency := []
deriving DecidableEq, Repr

structure Sbom where
  raw : Option SbomData := none
  file_path : Option String := none
deriving DecidableEq, Repr

/-- Grype `match.vulnerability` (with `fix.versions` flattened into a list,
absent `fix` being the empty list). -/
structure GrypeVulnerability where
  id : Option String := none
  severity : Option String := none
  name : Option String := none
  description : Option String := none
  fixVersions : List String := []
deriving DecidableEq, Repr

/-- Grype `match.artifact`. -/
structure GrypeArtifact where
  name : Option String := none
  version : Option String := none
  purl : Option String := none
deriving DecidableEq, Repr

/-- One raw Grype match. -/
structure GrypeMatch where
  vulnerability : GrypeVulnerability := {}
  artifact : GrypeArtifact := {}
deriving DecidableEq, Repr

/-- Raw vulnerability-scan structure (`vuln_data` dict); `matchesList` is its
`matches` key (`matches` is a Lean keyword). -/
structure VulnData where
  matchesList : Option (List GrypeMatch) := none
deriving DecidableEq, Repr

structure VulnReport where
  raw : Option VulnData := none
deriving DecidableEq, Repr

structure Finding where
  source : String
  message : String
  severity : String
deriving DecidableEq, Repr

/-- Run-scoped mutable context.  `log_display` keeps only the presence bit of
the optional UI handle (the source branches on `if ctx.log_display:`). -/
structure Context where
  package_name : String
  requested_version : Option String := none
  repo_source : Option String := none
  package : Option PackageMetadata := none
  download_info : Option DownloadInfo := none
  sbom : Option Sbom := none
  vulns : Option VulnReport := none
  findings : List Finding := []
  log_display : Bool := false
  report_path : Option String := none
deriving DecidableEq, Repr

structure AuditResult where
  ctx : Context
  score : Nat
  pdf_path : Option String := none
deriving DecidableEq, Repr

/-! ### Severity mapping (`_map_grype_severity`, identical in
`domain/scoring.py`, `services/reporting.py`,
`services/tasks/scan_vulnerabilities.py` and
`round_2/.../extract_report_data.py`).

`grype_severity.lower() if grype_severity else "unknown"`: both `None` and
the empty string are falsy and take the `"unknown"` branch. -/

/-- Python `str.lower()` on the ASCII vocabulary the scanner emits
(character-wise `Char.toLower`). -/
def strLower (s : String) : String :=
  ⟨s.data.map Char.toLower⟩

def mapGrypeSeverity (grype_severity : Option String) : String :=
  let severity_lower : String :=
    match grype_severity with
    | none => "unknown"
    | some s => if s = "" then "unknown" else strLower s
  if severity_lower = "critical" then "critical"
  else if severity_lower = "high" then "high"
  else if severity_lower = "medium" then "medium"
  else if severity_lower = "low" then "low"
  else "info"

def severityLevels : List String := ["critical", "high", "medium", "low", "info"]

/-! ### Risk scoring (`domain/scoring.py`, `compute_risk_score`) -/

/-- Dedup key `(cve_id, package_name, package_version)` with the `.get`
defaults of the source. -/
def matchKey (m : GrypeMatch) : String × String × String :=
  (m.vulnerability.id.getD "UNKNOWN",
   m.artifact.name.getD "unknown",
   m.artifact.version.getD "unknown")

/-- The `severity_weights` dict together with the `.get(severity, 0)` default. -/
def severityWeight (s : String) : Nat :=
  if s = "critical" then 10
  else if s = "high" then 5
  else if s = "medium" then 2
  else if s = "low" then 1
  else if s = "info" then 0
  else 0

/-- The dedup-and-count loop of `compute_risk_score`: walks the raw matches
keeping a `seen_vulns` set of keys and incrementing `severity_counts` for the
first match of each key. -/
def scoreLoop : List GrypeMatch → List (String × String × String) →
    (String → Nat) → (String → Nat)
  | [], _, counts => counts
  | m :: rest, seen, counts =>
    let key := matchKey m
    if key ∈ seen then scoreLoop rest seen counts
    else
      let sev := mapGrypeSeverity m.vulnerability.severity
      scoreLoop rest (key :: seen) (fun s => if s = sev then counts s + 1 else counts s)

/-- `compute_risk_score(result)`.  The guard
`if result.ctx.vulns and result.ctx.vulns.raw:` is the two `Option` layers;
`vuln_data.get("matches", []) or []` is `matches.getD []`.  The final sum
ranges over the five canonical levels (the keys a `severity_counts`
defaultdict can hold, severities with count 0 contributing nothing). -/
def compute_risk_score (result : AuditResult) : Nat :=
  match result.ctx.vulns with
  | none => 0
  | some vulnReport =>
    match vulnReport.raw with
    | none => 0
    | some vulnData =>
      let rawMatches := vulnData.matchesList.getD []
      let counts := scoreLoop rawMatches [] (fun _ => 0)
      (severityLevels.map (fun s => counts s * severityWeight s)).sum

/-! ### Specification-side scoring, written from the spec's words: group raw
matches by key, let each group contribute the severity of its (first)
representative, and take the weighted sum 10·critical + 5·high + 2·medium +
1·low. -/

/-- First-occurrence representative of every key group, in match order. -/
def firstOccurrences : List GrypeMatch → List (String × String × String) →
    List GrypeMatch
  | [], _ => []
  | m :: rest, seen =>
    if matchKey m ∈ seen then firstOccurrences rest seen
    else m :: firstOccurrences rest (matchKey m :: seen)

def dedupMatches (ms : List GrypeMatch) : List GrypeMatch :=
  firstOccurrences ms []

/-- Number of deduplicated matches whose mapped severity is `s`. -/
def sevCount (ms : List GrypeMatch) (s : String) : Nat :=
  ((dedupMatches ms).filter
    (fun m => mapGrypeSeverity m.vulnerability.severity = s)).length

/-- The spec's scoring rule over deduplicated per-severity counts. -/
def specRiskScore (ms : List GrypeMatch) : Nat :=
  10 * sevCount ms "critical" + 5 * sevCount ms "high" +
    2 * sevCount ms "medium" + sevCount ms "low"

/-- The incremental `severity_counts` of the scoring loop agree with the
filter count over the first-occurrence representatives. -/
theorem scoreLoop_apply (ms : List GrypeMatch) :
    ∀ (seen : List (String × String × String)) (c0 : String → Nat) (s : String),
      scoreLoop ms seen c0 s =
        c0 s + ((firstOccurrences ms seen).filter
          (fun m => mapGrypeSeverity m.vulnerability.severity = s)).length := by
  induction ms with
  | nil => intro seen c0 s; simp [scoreLoop, firstOccurrences]
  | cons m rest ih =>
    intro seen c0 s
    by_cases hmem : matchKey m ∈ seen
    · simp only [scoreLoop, firstOccurrences, if_pos hmem]
      exact ih seen c0 s
    · simp only [scoreLoop, firstOccurrences, if_neg hmem]
      rw [ih]
      by_cases hs : mapGrypeSeverity m.vulnerability.severity = s
      · rw [List.filter_cons_of_pos (by simpa using hs)]
        simp [hs]
        omega
      · rw [List.filter_cons_of_neg (by simpa using hs)]
        simp [Ne.symm hs]

theorem compute_risk_score_eq_spec (r : AuditResult) :
    compute_risk_score r =
      (match r.ctx.vulns with
       | none => 0
       | some vulnReport =>
         match vulnReport.raw with
         | none => 0
         | some vulnData => specRiskScore (vulnData.matchesList.getD [])) := by
  unfold compute_risk_score
  cases hv : r.ctx.vulns with
  | none => rfl
  | some vulnReport =>
    cases hr : vulnReport.raw with
    | none => simp only [hr]
    | some vulnData =>
      simp only [hr, severityLevels, List.map_cons, List.map_nil, List.sum_cons,
        List.sum_nil]
      rw [scoreLoop_apply, scoreLoop_apply, scoreLoop_apply, scoreLoop_apply,
        scoreLoop_apply]
      have hw1 : severityWeight "critical" = 10 := by decide
      have hw2 : severityWeight "high" = 5 := by decide
      have hw3 : severityWeight "medium" = 2 := by decide
      have hw4 : severityWeight "low" = 1 := by decide
      have hw5 : severityWeight "info" = 0 := by decide
      rw [hw1, hw2, hw3, hw4, hw5]
      simp only [specRiskScore, sevCount, dedupMatches]
      ring

/-! ### Vulnerability processor (`services/reporting.py`,
`_parse_vulnerabilities`; the `round_2/.../extract_report_data.py` copy
differs only in the fields of the returned summary).

`vuln_groups` is a `defaultdict(list)` keyed by the composite key: the first
match of a key creates its group (insertion order), later matches append. -/

/-- `vuln_groups[key].append(match)`. -/
def addToGroups (gs : List ((String × String × String) × List GrypeMatch))
    (m : GrypeMatch) : List ((String × String × String) × List GrypeMatch) :=
  let key := matchKey m
  if key ∈ gs.map Prod.fst then
    gs.map (fun g => if g.1 = key then (g.1, g.2 ++ [m]) else g)
  else gs ++ [(key, [m])]

def groupLoop : List GrypeMatch →
    List ((String × String × String) × List GrypeMatch) →
    List ((String × String × String) × List GrypeMatch)
  | [], gs => gs
  | m :: rest, gs => groupLoop rest (addToGroups gs m)

def vulnGroups (ms : List GrypeMatch) :
    List ((String × String × String) × List GrypeMatch) :=
  groupLoop ms []

/-- Python `a or b` on optional strings (`None` and `""` are falsy). -/
def strOrElse (o : Option String) (d : String) : String :=
  match o with
  | some s => if s = "" then d else s
  | none => d

/-- `_extract_fixed_version`: first entry of `vulnerability.fix.versions`. -/
def extractFixedVersion (m : GrypeMatch) : Option String :=
  m.vulnerability.fixVersions.head?

/-- One record of the `unique_vulns` list built per group. -/
structure UniqueVuln where
  cve_id : String
  package_name : String
  package_version : String
  severity : String
  description : String
  fixed_version : Option String
  component_count : Nat
deriving DecidableEq, Repr

/-- Per-group record built from the representative `match_list[0]`. -/
def uniqueVulnOf (g : (String × String × String) × List GrypeMatch) :
    UniqueVuln :=
  let m := g.2.headD {}
  { cve_id := m.vulnerability.id.getD "UNKNOWN"
    package_name := m.artifact.name.getD "unknown"
    package_version := m.artifact.version.getD "unknown"
    severity := mapGrypeSeverity m.vulnerability.severity
    description := strOrElse m.vulnerability.description
      (strOrElse m.vulnerability.name "No description")
    fixed_version := extractFixedVersion m
    component_count := g.2.length }

/-- The per-group `severity_counts` defaultdict of `_parse_vulnerabilities`. -/
def groupCountsLoop : List ((String × String × String) × List GrypeMatch) →
    (String → Nat) → (String → Nat)
  | [], c => c
  | g :: rest, c =>
    let sev := mapGrypeSeverity (g.2.headD {}).vulnerability.severity
    groupCountsLoop rest (fun s => if s = sev then c s + 1 else c s)

/-- Return value of `_parse_vulnerabilities`. -/
structure ParsedVulns where
  severity_counts : String → Nat
  unique_vulns : List UniqueVuln
  total_matches : Nat
  unique_count : Nat

def parseVulnerabilities (vulnData : VulnData) : ParsedVulns :=
  let rawMatches := vulnData.matchesList.getD []
  let groups := vulnGroups rawMatches
  { severity_counts := groupCountsLoop groups (fun _ => 0)
    unique_vulns := groups.map uniqueVulnOf
    total_matches := rawMatches.length
    unique_count := groups.length }

/-! Characterization of `vulnGroups`: the group keys are the distinct match
keys in first-occurrence order, and each group holds exactly the matches
with its key, in order. -/

/-- Distinct keys of a match list, first occurrence first. -/
def specKeys (ms : List GrypeMatch) : List (String × String × String) :=
  ms.foldl (fun ks m => if matchKey m ∈ ks then ks else ks ++ [matchKey m]) []

theorem specKeys_foldl_mem (ms : List GrypeMatch) :
    ∀ (init : List (String × String × String)) (k : String × String × String),
      k ∈ ms.foldl
          (fun ks m => if matchKey m ∈ ks then ks else ks ++ [matchKey m])
          init ↔
        k ∈ init ∨ k ∈ ms.map matchKey := by
  induction ms with
  | nil => simp
  | cons m rest ih =>
    intro init k
    simp only [List.foldl_cons, List.map_cons, List.mem_cons]
    rw [ih]
    by_cases hm : matchKey m ∈ init
    · simp only [if_pos hm]
      constructor
      · rintro (h | h)
        · exact Or.inl h
        · exact Or.inr (Or.inr h)
      · rintro (h | h | h)
        · exact Or.inl h
        · exact Or.inl (h ▸ hm)
        · exact Or.inr h
    · simp only [if_neg hm, List.mem_append, List.mem_singleton]
      tauto

theorem specKeys_foldl_nodup (ms : List GrypeMatch) :
    ∀ (init : List (String × String × String)), init.Nodup →
      (ms.foldl
        (fun ks m => if matchKey m ∈ ks then ks else ks ++ [matchKey m])
        init).Nodup := by
  induction ms with
  | nil => intro init h; simpa using h
  | cons m rest ih =>
    intro init h
    simp only [List.foldl_cons]
    by_cases hm : matchKey m ∈ init
    · rw [if_pos hm]; exact ih init h
    · rw [if_neg hm]
      exact ih _ (by simp [List.nodup_append, h, hm])

theorem specKeys_mem (ms : List GrypeMatch) (k : String × String × String) :
    k ∈ specKeys ms ↔ k ∈ ms.map matchKey := by
  rw [specKeys, specKeys_foldl_mem]
  simp

theorem specKeys_nodup (ms : List GrypeMatch) : (specKeys ms).Nodup :=
  specKeys_foldl_nodup ms [] List.nodup_nil

theorem specKeys_length (ms : List GrypeMatch) :
    (specKeys ms).length = (ms.map matchKey).toFinset.card := by
  rw [← List.toFinset_card_of_nodup (specKeys_nodup ms)]
  congr 1
  ext k
  simp [specKeys_mem]

/-- Invariant carried by the grouping loop over the processed prefix. -/
def GroupInv (pre : List GrypeMatch)
    (gs : List ((String × String × String) × List GrypeMatch)) : Prop :=
  gs.map Prod.fst = specKeys pre ∧
    ∀ k l, (k, l) ∈ gs → l = pre.filter (fun m => matchKey m = k)

theorem specKeys_append_singleton (pre : List GrypeMatch) (m : GrypeMatch) :
    specKeys (pre ++ [m]) =
      if matchKey m ∈ specKeys pre then specKeys pre
      else specKeys pre ++ [matchKey m] := by
  simp [specKeys, List.foldl_append]

theorem groupInv_step (pre : List GrypeMatch) (m : GrypeMatch)
    (gs : List ((String × String × String) × List GrypeMatch))
    (h : GroupInv pre gs) : GroupInv (pre ++ [m]) (addToGroups gs m) := by
  obtain ⟨hkeys, hvals⟩ := h
  unfold addToGroups
  by_cases hm : matchKey m ∈ gs.map Prod.fst
  · rw [if_pos hm]
    have hfst : (Prod.fst ∘ fun g : (String × String × String) × List GrypeMatch =>
        if g.1 = matchKey m then (g.1, g.2 ++ [m]) else g) = Prod.fst := by
      funext g
      by_cases hg : g.1 = matchKey m <;> simp [hg]
    constructor
    · rw [List.map_map, hfst, hkeys, specKeys_append_singleton,
        if_pos (hkeys ▸ hm)]
    · intro k l hin
      obtain ⟨g, hg, hu⟩ := List.mem_map.mp hin
      have hgmem : (g.1, g.2) ∈ gs := by simpa using hg
      have hgval : g.2 = pre.filter (fun x => matchKey x = g.1) :=
        hvals g.1 g.2 hgmem
      by_cases hg1 : g.1 = matchKey m
      · rw [if_pos hg1, Prod.mk.injEq] at hu
        obtain ⟨hk, hl⟩ := hu
        subst hk
        rw [List.filter_append]
        have hfm : [m].filter (fun x => matchKey x = g.1) = [m] := by
          simp [hg1]
        rw [hfm, ← hgval, hl]
      · rw [if_neg hg1] at hu
        have hk : g.1 = k := by rw [hu]
        have hl : g.2 = l := by rw [hu]
        subst hk
        rw [List.filter_append]
        have hne : ¬ (matchKey m = g.1) := fun hh => hg1 hh.symm
        have hfm : [m].filter (fun x => matchKey x = g.1) = [] := by
          simp [hne]
        rw [hfm, List.append_nil, ← hgval, hl]
  · rw [if_neg hm]
    have hknot : matchKey m ∉ specKeys pre := hkeys ▸ hm
    constructor
    · rw [List.map_append, hkeys, specKeys_append_singleton, if_neg hknot]
      rfl
    · intro k l hin
      rcases List.mem_append.mp hin with hold | hnew
      · have hkin : k ∈ gs.map Prod.fst := List.mem_map.mpr ⟨(k, l), hold, rfl⟩
        have hkm : k ≠ matchKey m := fun h => hm (h ▸ hkin)
        rw [List.filter_append]
        have hne : ¬ (matchKey m = k) := fun hh => hkm hh.symm
        have hfm : [m].filter (fun x => matchKey x = k) = [] := by
          simp [hne]
        rw [hfm, List.append_nil]
        exact hvals k l hold
      · have hpair : (k, l) = (matchKey m, [m]) := by simpa using hnew
        rw [Prod.mk.injEq] at hpair
        obtain ⟨hk, hl⟩ := hpair
        subst hk
        subst hl
        have hpre : pre.filter (fun x => matchKey x = matchKey m) = [] := by
          rw [List.filter_eq_nil_iff]
          intro x hx hcontra
          have hmem2 : matchKey m ∈ pre.map matchKey :=
            List.mem_map.mpr ⟨x, hx, by simpa using hcontra⟩
          exact hknot ((specKeys_mem pre (matchKey m)).mpr hmem2)
        rw [List.filter_append, hpre, List.nil_append]
        simp

theorem groupLoop_inv (ms : List GrypeMatch) :
    ∀ (pre : List GrypeMatch)
      (gs : List ((String × String × String) × List GrypeMatch)),
      GroupInv pre gs → GroupInv (pre ++ ms) (groupLoop ms gs) := by
  induction ms with
  | nil => intro pre gs h; simpa using h
  | cons m rest ih =>
    intro pre gs h
    have step := groupInv_step pre m gs h
    have := ih (pre ++ [m]) (addToGroups gs m) step
    simpa [groupLoop] using this

theorem vulnGroups_inv (ms : List GrypeMatch) : GroupInv ms (vulnGroups ms) := by
  have := groupLoop_inv ms [] [] ⟨rfl, by intro k l h; simp at h⟩
  simpa [vulnGroups] using this

/-- Every group holds exactly the raw matches with its key, in order, and is
nonempty. -/
theorem vulnGroups_mem_filter (ms : List GrypeMatch)
    (k : String × String × String) (l : List GrypeMatch)
    (h : (k, l) ∈ vulnGroups ms) :
    l = ms.filter (fun m => matchKey m = k) ∧ l ≠ [] := by
  obtain ⟨hkeys, hvals⟩ := vulnGroups_inv ms
  have hl := hvals k l h
  refine ⟨hl, ?_⟩
  have hkin : k ∈ (vulnGroups ms).map Prod.fst :=
    List.mem_map.mpr ⟨(k, l), h, rfl⟩
  rw [hkeys] at hkin
  have : k ∈ ms.map matchKey := (specKeys_mem ms k).mp hkin
  obtain ⟨x, hx, hxk⟩ := List.mem_map.mp this
  intro hnil
  rw [hl, List.filter_eq_nil_iff] at hnil
  exact hnil x hx (by simpa using hxk)

/-- The number of groups is the number of distinct composite keys. -/
theorem vulnGroups_length (ms : List GrypeMatch) :
    (vulnGroups ms).length = (ms.map matchKey).toFinset.card := by
  have hkeys := (vulnGroups_inv ms).1
  have : (vulnGroups ms).length = ((vulnGroups ms).map Prod.fst).length := by
    simp
  rw [this, hkeys, specKeys_length]

/-! ### SBOM structural analyzer (`_analyze_sbom_structure` and its inner
`bfs_depth`, identical in `services/tasks/generate_sbom.py` and
`round_2/.../extract_report_data.py`; the embedding keeps the
dependency-graph metrics and drops the display-only license/type tallies).

The Python `while queue:` loop is embedded with an explicit fuel argument
(structural recursion); `bfs_depth` runs it with fuel equal to the loop's
variant `bfsMeasure`, and `bfsLoop_fuel` below shows any fuel at least the
variant yields the same result — i.e. the source loop terminates within
`bfsMeasure` iterations on every finite graph, cyclic or not.  The internal
`use_metadata_fallback` flag is exposed as a field of the result so that the
fallback behaviour can be specified. -/

/-- `dep.get("ref")` filtered through `if not ref: continue`. -/
def truthyRef (d : SbomDependency) : Option String :=
  match d.ref with
  | some r => if r = "" then none else some r
  | none => none

/-- `deps_map.get(node, [])`: the `defaultdict(list)` accumulates, per truthy
`ref`, the `dependsOn` children of all its edges in input order. -/
def depsGet (deps : List SbomDependency) (r : String) : List String :=
  (deps.filter (fun d => truthyRef d = some r)).flatMap (fun d => d.dependsOn)

/-- Every node the BFS can ever enqueue: all `dependsOn` children. -/
def childUniverse (deps : List SbomDependency) : Finset String :=
  (deps.flatMap (fun d => d.dependsOn)).toFinset

theorem depsGet_subset_universe (deps : List SbomDependency) (r : String) :
    ∀ c ∈ depsGet deps r, c ∈ childUniverse deps := by
  intro c hc
  simp only [depsGet, List.mem_flatMap, List.mem_filter] at hc
  obtain ⟨d, ⟨hd, _⟩, hcd⟩ := hc
  simp only [childUniverse, List.mem_toFinset, List.mem_flatMap]
  exact ⟨d, hd, hcd⟩

/-- The `for nxt in deps_map.get(node, [])` body: unseen children are added
to `seen` and `transitive` and appended to the queue at depth `d`. -/
def processKids : List String → Nat → Finset String → Finset String →
    List (String × Nat) → Finset String × Finset String × List (String × Nat)
  | [], _, seen, tr, queue => (seen, tr, queue)
  | c :: cs, d, seen, tr, queue =>
    if c ∈ seen then processKids cs d seen tr queue
    else processKids cs d (insert c seen) (insert c tr) (queue ++ [(c, d)])

/-- The `while queue:` loop of `bfs_depth`, with explicit fuel. -/
def bfsLoop (deps : List SbomDependency) :
    Nat → List (String × Nat) → Finset String → Finset String → Nat →
    Nat × Finset String
  | _, [], _, tr, maxd => (maxd, tr)
  | 0, _ :: _, _, tr, maxd => (maxd, tr)
  | fuel + 1, (node, depth) :: qs, seen, tr, maxd =>
    let pk := processKids (depsGet deps node) (depth + 1) seen tr qs
    bfsLoop deps fuel pk.2.2 pk.1 pk.2.1 (max maxd depth)

/-- Loop variant: unreached universe nodes plus pending queue entries. -/
def bfsMeasure (deps : List SbomDependency) (queue : List (String × Nat))
    (seen : Finset String) : Nat :=
  (childUniverse deps \ seen).card + queue.length

/-- `set(deps_map.get(start, []))`, enumerated in first-occurrence order. -/
def bfsDirect (deps : List SbomDependency) (start : String) : List String :=
  (depsGet deps start).dedup

def bfsInitQueue (deps : List SbomDependency) (start : String) :
    List (String × Nat) :=
  (bfsDirect deps start).map (fun c => (c, 2))

/-- `seen = {start}; seen.update(direct)`. -/
def bfsInitSeen (deps : List SbomDependency) (start : String) : Finset String :=
  insert start (bfsDirect deps start).toFinset

/-- `bfs_depth(start)`: `(max_depth_local, direct, transitive)`. -/
def bfs_depth (deps : List SbomDependency) (start : String) :
    Nat × Finset String × Finset String :=
  let direct := (bfsDirect deps start).toFinset
  if (bfsDirect deps start).isEmpty then (0, direct, ∅)
  else
    let res := bfsLoop deps
      (bfsMeasure deps (bfsInitQueue deps start) (bfsInitSeen deps start))
      (bfsInitQueue deps start) (bfsInitSeen deps start) ∅ 1
    (res.1, direct, res.2)

theorem bfsLoop_nil (deps : List SbomDependency) (fuel : Nat)
    (seen trans : Finset String) (maxd : Nat) :
    bfsLoop deps fuel [] seen trans maxd = (maxd, trans) := by
  cases fuel <;> rfl

/-- Processing a child list inside the universe preserves the sum of
unreached-universe count and queue length. -/
theorem processKids_measure (U : Finset String) :
    ∀ (cs : List String) (d : Nat) (seen trans : Finset String)
      (queue : List (String × Nat)), (∀ c ∈ cs, c ∈ U) →
      (U \ (processKids cs d seen trans queue).1).card +
          (processKids cs d seen trans queue).2.2.length =
        (U \ seen).card + queue.length := by
  intro cs
  induction cs with
  | nil => intro d seen trans queue _; rfl
  | cons c cs ih =>
    intro d seen trans queue hU
    have hcU : c ∈ U := hU c (List.mem_cons_self c cs)
    have hrest : ∀ x ∈ cs, x ∈ U := fun x hx => hU x (List.mem_cons_of_mem c hx)
    by_cases hseen : c ∈ seen
    · rw [processKids, if_pos hseen]
      exact ih d seen trans queue hrest
    · rw [processKids, if_neg hseen]
      rw [ih d _ _ _ hrest]
      have hmem : c ∈ U \ seen := Finset.mem_sdiff.mpr ⟨hcU, hseen⟩
      have hins : U \ insert c seen = (U \ seen).erase c := by
        ext x
        simp only [Finset.mem_sdiff, Finset.mem_insert, Finset.mem_erase]
        tauto
      rw [hins, Finset.card_erase_of_mem hmem]
      have hpos : 0 < (U \ seen).card := Finset.card_pos.mpr ⟨c, hmem⟩
      simp only [List.length_append, List.length_cons, List.length_nil]
      omega

/-- Fuel-independence of the BFS loop past its variant: the source's
unbounded `while queue:` loop terminates within `bfsMeasure` iterations. -/
theorem bfsLoop_fuel (deps : List SbomDependency) :
    ∀ (f1 f2 : Nat) (queue : List (String × Nat)) (seen trans : Finset String)
      (maxd : Nat), bfsMeasure deps queue seen ≤ f1 →
      bfsMeasure deps queue seen ≤ f2 →
      bfsLoop deps f1 queue seen trans maxd =
        bfsLoop deps f2 queue seen trans maxd := by
  intro f1
  induction f1 with
  | zero =>
    intro f2 queue seen trans maxd h1 _
    have hq : queue = [] := by
      rcases queue with _ | ⟨x, qs⟩
      · rfl
      · exfalso
        simp only [bfsMeasure, List.length_cons] at h1
        omega
    subst hq
    rw [bfsLoop_nil, bfsLoop_nil]
  | succ f1 ih =>
    intro f2 queue seen trans maxd h1 h2
    rcases queue with _ | ⟨⟨node, depth⟩, qs⟩
    · rw [bfsLoop_nil, bfsLoop_nil]
    · have hm1 : 1 ≤ bfsMeasure deps ((node, depth) :: qs) seen := by
        simp [bfsMeasure]
        omega
      rcases f2 with _ | f2
      · omega
      · rw [bfsLoop, bfsLoop]
        have hkids := processKids_measure (childUniverse deps)
          (depsGet deps node) (depth + 1) seen trans qs
          (depsGet_subset_universe deps node)
        have hnewm : bfsMeasure deps
            (processKids (depsGet deps node) (depth + 1) seen trans qs).2.2
            (processKids (depsGet deps node) (depth + 1) seen trans qs).1 =
            bfsMeasure deps ((node, depth) :: qs) seen - 1 := by
          simp only [bfsMeasure] at *
          simp only [List.length_cons] at *
          omega
        apply ih
        · rw [hnewm]; simp only [bfsMeasure] at *; omega
        · rw [hnewm]; simp only [bfsMeasure] at *; omega

/-- `comp.get("type", "").lower()`. -/
def compTypeLower (c : SbomComponent) : String :=
  strLower (c.type.getD "")

/-- `comp.get("bom-ref")` under Python truthiness. -/
def truthyBomRef (c : SbomComponent) : Option String :=
  match c.bom_ref with
  | some r => if r = "" then none else some r
  | none => none

/-- The declared-dependency list of fallback B:
`[d for d in ctx.package.requires_dist if d]`, guarded by
`if ctx and ctx.package and ctx.package.requires_dist:`. -/
def declaredDeps (ctx : Option Context) : List String :=
  match ctx with
  | none => []
  | some c =>
    match c.package with
    | none => []
    | some p =>
      match p.requires_dist with
      | none => []
      | some rd => if rd = [] then [] else rd.filter (fun d => d ≠ "")

/-- Output record of `_analyze_sbom_structure` (dependency-graph metrics;
the internal `use_metadata_fallback` flag is exposed). -/
structure SbomAnalysis where
  total_components : Nat
  max_depth : Nat
  direct_dependencies : Nat
  transitive_dependencies : Nat
  root_components : Nat
  use_metadata_fallback : Bool
deriving DecidableEq, Repr

/-- The `children` set of `_analyze_sbom_structure` (as a list; only
membership is ever used). -/
def childRefs (dependencies : List SbomDependency) : List String :=
  (dependencies.filter (fun d => (truthyRef d).isSome)).flatMap
    (fun d => d.dependsOn)

/-- `roots = all_refs - children`, enumerated without duplicates (the Python
`set` fixes no order; every quantity derived from it is order-independent). -/
def graphRoots (dependencies : List SbomDependency) : List String :=
  ((dependencies.filterMap truthyRef) ++ childRefs dependencies).dedup.filter
    (fun r => r ∉ childRefs dependencies)

/-- Fallback A of `_analyze_sbom_structure`: when the `dependencies` array is
empty but components exist, library/application/framework components that are
not children are added to the root set. -/
def rootsWithFallbackA (sbom : SbomData) : List String :=
  let dependencies := sbom.dependencies
  if dependencies.isEmpty && !sbom.components.isEmpty then
    sbom.components.foldl (fun rs c =>
      match truthyBomRef c with
      | some r =>
        if (compTypeLower c = "library" ∨ compTypeLower c = "application" ∨
            compTypeLower c = "framework") ∧ r ∉ childRefs dependencies then
          if r ∈ rs then rs else rs ++ [r]
        else rs
      | none => rs) (graphRoots dependencies)
  else graphRoots dependencies

def analyzeSbomStructure (sbom : SbomData) (ctx : Option Context) :
    SbomAnalysis :=
  let components := sbom.components
  let dependencies := sbom.dependencies
  let roots := rootsWithFallbackA sbom
  let fallbackA := dependencies.isEmpty && !components.isEmpty
  let declaredCount := if fallbackA then (declaredDeps ctx).length else 0
  let use_fallback := fallbackA && decide (0 < declaredCount)
  if use_fallback then
    { total_components := components.length
      max_depth := if 0 < declaredCount then 1 else 0
      direct_dependencies := declaredCount
      transitive_dependencies := 0
      root_components := roots.length
      use_metadata_fallback := true }
  else
    let folded := roots.foldl (fun acc r =>
      let res := bfs_depth dependencies r
      (max acc.1 res.1, acc.2.1 ∪ res.2.1, acc.2.2 ∪ res.2.2))
      (0, (∅ : Finset String), (∅ : Finset String))
    { total_components := components.length
      max_depth := folded.1
      direct_dependencies := folded.2.1.card
      transitive_dependencies := folded.2.2.card
      root_components := roots.length
      use_metadata_fallback := false }

/-! ### Pipeline executor (`services/pipeline.py`, `run_pipeline`).

Python exceptions mutate the shared `Context` before unwinding, so a task
run is `Context → Except (PyExc × Context) Context`: the error value carries
the context as mutated up to the raise.  Only `PipelineFatalError` is caught
by the executor; every other exception propagates (`PyExc.valueError` for the
executor's own `raise ValueError`, `PyExc.other` for anything else). -/

inductive PyExc where
  | fatal (message : String) (source : Option String)
  | valueError (message : String)
  | other (message : String)
deriving DecidableEq, Repr

/-- A registered task: name plus `run` (status-message generation is pure
display and not modelled). -/
structure TaskModel where
  name : String
  run : Context → Except (PyExc × Context) Context

/-- The static `CHAINS` map. -/
def CHAINS : List (String × List String) :=
  [("pypi", ["fetch_pypi", "download_pypi", "generate_sbom",
             "scan_vulnerabilities", "run_analyses", "extract_report_data",
             "generate_pdf_report"]),
   ("npm", ["fetch_npm", "download_npm", "generate_sbom",
            "scan_vulnerabilities", "run_analyses", "extract_report_data",
            "generate_pdf_report"]),
   ("rust", ["fetch_rust", "download_rust", "generate_sbom",
             "scan_vulnerabilities", "run_analyses", "extract_report_data",
             "generate_pdf_report"])]

/-- `Finding(source=e.source or "pipeline", message=e.message,
severity="critical")`. -/
def fatalFinding (message : String) (source : Option String) : Finding :=
  { source := match source with
      | some s => if s = "" then "pipeline" else s
      | none => "pipeline"
    message := message
    severity := "critical" }

/-- The `for index, task in enumerate(tasks):` loop plus the result
construction that follows it.  On success of all tasks the result carries
`pdf_path = ctx.report_path`; on `PipelineFatalError` one critical Finding is
appended and a partial result (no pdf path) is returned immediately. -/
def runTasks : List TaskModel → Context → Except (PyExc × Context) AuditResult
  | [], ctx =>
    let score := compute_risk_score { ctx := ctx, score := 0, pdf_path := none }
    .ok { ctx := ctx, score := score, pdf_path := ctx.report_path }
  | t :: rest, ctx =>
    match t.run ctx with
    | .ok ctxNext => runTasks rest ctxNext
    | .error (.fatal msg src, ctxErr) =>
      let ctxF := { ctxErr with
        findings := ctxErr.findings ++ [fatalFinding msg src] }
      let score := compute_risk_score { ctx := ctxF, score := 0, pdf_path := none }
      .ok { ctx := ctxF, score := score, pdf_path := none }
    | .error (e, ctxErr) => .error (e, ctxErr)

/-- `run_pipeline(ctx)`, parameterised by the task registry (`get_task`). -/
def run_pipeline (registry : String → Option TaskModel) (ctx : Context) :
    Except (PyExc × Context) AuditResult :=
  match ctx.repo_source with
  | none => .error (.valueError "repo_source must be set in context", ctx)
  | some rs =>
    if rs = "" then
      .error (.valueError "repo_source must be set in context", ctx)
    else
      match CHAINS.lookup rs with
      | none => .error (.valueError ("Unknown repo_source: " ++ rs), ctx)
      | some task_names =>
        let resolved := task_names.map (fun n => (n, registry n))
        let missing := (resolved.filter (fun p => p.2.isNone)).map Prod.fst
        let tasks := resolved.filterMap Prod.snd
        if missing.isEmpty then runTasks tasks ctx
        else
          let msg := "Missing tasks in registry: " ++
            String.intercalate ", " missing
          let ctxM := { ctx with findings := ctx.findings ++
            [{ source := "pipeline", message := msg, severity := "critical" }] }
          .error (.valueError msg, ctxM)

/-! ### External-tool error paths of the two scanner tasks
(`GenerateSbom.run` in `services/tasks/generate_sbom.py`,
`ScanVulnerabilities.run` in `services/tasks/scan_vulnerabilities.py`).

The subprocess adapters are external collaborators; a task body is embedded
as a function of the adapter call's outcome. -/

inductive SyftOutcome where
  | ok (sbomData : SbomData)
  | notFound (msg : String)
  | toolError (msg : String)

inductive GrypeOutcome where
  | ok (vulnData : VulnData)
  | notFound (msg : String)
  | toolError (msg : String)

/-- `if not ctx.download_info or not ctx.download_info.local_path:`. -/
def downloadMissing (ctx : Context) : Bool :=
  match ctx.download_info with
  | none => true
  | some di =>
    match di.local_path with
    | none => true
    | some lp => lp = ""

/-- `if not ctx.sbom or not ctx.sbom.file_path:`. -/
def sbomFileMissing (ctx : Context) : Bool :=
  match ctx.sbom with
  | none => true
  | some s =>
    match s.file_path with
    | none => true
    | some fp => fp = ""

def emptySbomWarning : String :=
  "WARNING: SBOM is empty (0 components found). This may indicate an " ++
  "issue with SBOM generation. Vulnerability scanning will have no " ++
  "components to analyze."

/-- `GenerateSbom.run`, as a function of the Syft outcome and of the SBOM
file-write result (`None` when saving failed).  `SyftNotFoundError` and
`SyftError` both append a critical Finding and raise the fatal signal. -/
def generateSbomRun (syft : SyftOutcome) (writeResult : Option String)
    (ctx : Context) : Except (PyExc × Context) Context :=
  if downloadMissing ctx then
    .error (.fatal "Cannot generate SBOM: package artifact not downloaded"
      (some "generate_sbom"), ctx)
  else
    match syft with
    | .ok sbomData =>
      let ctx1 := { ctx with
        sbom := some { raw := some sbomData, file_path := writeResult } }
      let ctx2 :=
        if ctx1.log_display && sbomData.components.length == 0 then
          { ctx1 with findings := ctx1.findings ++
            [{ source := "generate_sbom", message := emptySbomWarning,
               severity := "warning" }] }
        else ctx1
      .ok { ctx2 with findings := ctx2.findings ++
        [{ source := "generate_sbom", message := "SBOM generated successfully",
           severity := "info" }] }
    | .notFound msg =>
      let ctx1 := { ctx with findings := ctx.findings ++
        [{ source := "generate_sbom", message := msg, severity := "critical" }] }
      .error (.fatal ("SBOM generation failed: " ++ msg)
        (some "generate_sbom"), ctx1)
    | .toolError msg =>
      let ctx1 := { ctx with findings := ctx.findings ++
        [{ source := "generate_sbom", message := "SBOM generation failed: " ++ msg,
           severity := "critical" }] }
      .error (.fatal ("SBOM generation failed: " ++ msg)
        (some "generate_sbom"), ctx1)

/-- `_build_sbom_lookup_maps`: purl → bom-ref and (name, version) → bom-ref
(dict assignment: a later component overwrites an earlier key). -/
def assocInsert {α : Type} [DecidableEq α] (m : List (α × String)) (k : α)
    (v : String) : List (α × String) :=
  if k ∈ m.map Prod.fst then
    m.map (fun p => if p.1 = k then (k, v) else p)
  else m ++ [(k, v)]

def buildSbomLookupMaps (sbomData : SbomData) :
    List (String × String) × List ((String × String) × String) :=
  sbomData.components.foldl (fun maps comp =>
    match truthyBomRef comp with
    | none => maps
    | some bomRef =>
      let purlMap := match comp.purl with
        | some p => if p = "" then maps.1 else assocInsert maps.1 p bomRef
        | none => maps.1
      let nvMap := match comp.name with
        | some n =>
          if n = "" then maps.2
          else assocInsert maps.2 (n, comp.version.getD "") bomRef
        | none => maps.2
      (purlMap, nvMap)) ([], [])

/-- `_find_sbom_component`: purl match first, then (name, version). -/
def findSbomComponent (artifact : GrypeArtifact)
    (purlMap : List (String × String))
    (nvMap : List ((String × String) × String)) : Option String :=
  let byPurl := match artifact.purl with
    | some p =>
      if p = "" then none
      else match purlMap.lookup p with
        | some r => some r
        | none => none
    | none => none
  match byPurl with
  | some r => some r
  | none =>
    match artifact.name with
    | some n =>
      if n = "" then none
      else nvMap.lookup (n, artifact.version.getD "")
    | none => none

/-- The per-unique-vulnerability Finding built by `ScanVulnerabilities.run`
(source `"grype"`, canonical severity, assembled message). -/
def grypeFindingOf (purlMap : List (String × String))
    (nvMap : List ((String × String) × String))
    (g : (String × String × String) × List GrypeMatch) : Finding :=
  let m := g.2.headD {}
  let sev := mapGrypeSeverity m.vulnerability.severity
  let fixed := extractFixedVersion m
  let bomRef := findSbomComponent m.artifact purlMap nvMap
  let desc := strOrElse m.vulnerability.description
    (strOrElse m.vulnerability.name "No description available")
  let parts :=
    ["CVE-" ++ g.1.1 ++ ": " ++ g.1.2.1 ++ "@" ++ g.1.2.2] ++
    (match fixed with
     | some f => ["(Fixed in " ++ f ++ ")"]
     | none => []) ++
    (if g.2.length > 1 then
      ["- affects " ++ toString g.2.length ++ " component(s)"]
     else []) ++
    (match bomRef with
     | some r => ["[SBOM: " ++ r ++ "]"]
     | none => []) ++
    ["- " ++ desc]
  { source := "grype", message := String.intercalate " " parts, severity := sev }

/-- `ScanVulnerabilities.run` as a function of the Grype outcome.
`GrypeNotFoundError` appends a critical Finding, substitutes an empty
report, and CONTINUES (no fatal raise); `GrypeError` does the same with a
warning Finding.  Only the missing-SBOM precondition raises the fatal
signal. -/
def scanVulnerabilitiesRun (grype : GrypeOutcome) (ctx : Context) :
    Except (PyExc × Context) Context :=
  if sbomFileMissing ctx then
    .error (.fatal "Cannot scan vulnerabilities: SBOM not generated"
      (some "scan_vulnerabilities"), ctx)
  else
    match grype with
    | .ok vulnData =>
      let ctx1 := { ctx with vulns := some { raw := some vulnData } }
      let maps := match ctx.sbom with
        | some s =>
          (match s.raw with
           | some raw => buildSbomLookupMaps raw
           | none => ([], []))
        | none => ([], [])
      let groups := vulnGroups (vulnData.matchesList.getD [])
      let vulnFindings := groups.map (grypeFindingOf maps.1 maps.2)
      let summary : Finding :=
        if groups.length > 0 then
          { source := "scan_vulnerabilities"
            message := "Found " ++ toString groups.length ++
              " unique vulnerability(ies) in SBOM"
            severity := "info" }
        else
          { source := "scan_vulnerabilities"
            message := "No vulnerabilities found in SBOM"
            severity := "info" }
      .ok { ctx1 with findings := ctx1.findings ++ vulnFindings ++ [summary] }
    | .notFound msg =>
      .ok { ctx with
        findings := ctx.findings ++
          [{ source := "scan_vulnerabilities"
             message := "Grype not available: " ++ msg
             severity := "critical" }]
        vulns := some { raw := some { matchesList := some [] } } }
    | .toolError msg =>
      .ok { ctx with
        findings := ctx.findings ++
          [{ source := "scan_vulnerabilities"
             message := "Vulnerability scan failed: " ++ msg
             severity := "warning" }]
        vulns := some { raw := some { matchesList := some [] } } }

/-! ### Helper lemmas and concrete inputs used by the claim theorems -/

/-- When every task can only fail with the fatal signal, the executor loop
always returns an `AuditResult`. -/
theorem runTasks_total (ts : List TaskModel) :
    ∀ ctx : Context,
      (∀ t ∈ ts, ∀ (c cErr : Context) (e : PyExc),
        t.run c = .error (e, cErr) → ∃ m s, e = .fatal m s) →
      ∃ result : AuditResult, runTasks ts ctx = .ok result := by
  induction ts with
  | nil => intro ctx _; exact ⟨_, rfl⟩
  | cons t rest ih =>
    intro ctx hfatal
    cases hrun : t.run ctx with
    | ok ctxNext =>
      obtain ⟨r, hr⟩ := ih ctxNext
        (fun t' ht' => hfatal t' (List.mem_cons_of_mem t ht'))
      exact ⟨r, by rw [runTasks, hrun]; exact hr⟩
    | error p =>
      obtain ⟨e, ctxErr⟩ := p
      obtain ⟨m, s, he⟩ :=
        hfatal t (List.mem_cons_self t rest) ctx ctxErr e hrun
      subst he
      exact ⟨_, by rw [runTasks, hrun]⟩

/-- Scenario-1 match `{id: CVE-1, severity: Critical, pkg: a@1}` (it occurs
twice in the raw scan output). -/
def mEx1 : GrypeMatch :=
  { vulnerability := { id := some "CVE-1", severity := some "Critical" }
    artifact := { name := some "a", version := some "1" } }

/-- Scenario-1 match `{id: CVE-2, severity: Low, pkg: b@2}`. -/
def mEx3 : GrypeMatch :=
  { vulnerability := { id := some "CVE-2", severity := some "Low" }
    artifact := { name := some "b", version := some "2" } }

/-- Scenario-1 raw scan output: three matches, two distinct keys. -/
def dEx : VulnData := { matchesList := some [mEx1, mEx1, mEx3] }

/-- Scenario-2 SBOM: components `{A, B, C}`, edges `A → B` and `B → C`. -/
def chainSbom : SbomData :=
  { components := [{ bom_ref := some "A", type := some "library" },
                   { bom_ref := some "B", type := some "library" },
                   { bom_ref := some "C", type := some "library" }]
    dependencies := [{ ref := some "A", dependsOn := ["B"] },
                     { ref := some "B", dependsOn := ["C"] }] }

/-- Scenario-3 context: `package.requires_dist = ["a", "b", "c"]`. -/
def ctx3 : Context :=
  { package_name := "pkg"
    package := some { name := "pkg", requires_dist := some ["a", "b", "c"] } }

/-- Dependency edges `R → A` and `A → A`: `A` is referenced as a child of a
self-cycle. -/
def cycleDeps : List SbomDependency :=
  [{ ref := some "R", dependsOn := ["A"] },
   { ref := some "A", dependsOn := ["A"] }]

/-! ### Claim theorems -/

/-- C1: for every audit result, `compute_risk_score` returns the
spec's weighted sum 10·critical + 5·high + 2·medium + 1·low over the
per-severity counts of the key-deduplicated matches (each key group
represented by its first match), and it returns 0 when the vulnerability
report is absent, has no raw payload, or has no matches. -/
theorem claim_C1_risk_score_weighted_dedup_sum :
    (∀ r : AuditResult, compute_risk_score r =
      match r.ctx.vulns with
      | none => 0
      | some vulnReport =>
        match vulnReport.raw with
        | none => 0
        | some vulnData => specRiskScore (vulnData.matchesList.getD [])) ∧
    (∀ r : AuditResult, r.ctx.vulns = none → compute_risk_score r = 0) ∧
    (∀ (r : AuditResult) (vr : VulnReport) (d : VulnData),
      r.ctx.vulns = some vr → vr.raw = some d →
      d.matchesList.getD [] = [] → compute_risk_score r = 0) := by
  refine ⟨compute_risk_score_eq_spec, ?_, ?_⟩
  · intro r h
    rw [compute_risk_score_eq_spec, h]
  · intro r vr d hv hr hm
    rw [compute_risk_score_eq_spec]
    simp only [hv, hr, hm]
    rfl

/-- C1 witness: scenario 1 — three raw matches, duplicate `CVE-1 a@1` pair
plus one `CVE-2 Low`, scores 10 + 1 = 11; a context without a report and a
context with an empty match list score 0. -/
theorem claim_C1_risk_score_weighted_dedup_sum_witness :
    compute_risk_score
        { ctx := { package_name := "p", vulns := some { raw := some dEx } }
          score := 0 } = 11 ∧
    compute_risk_score { ctx := { package_name := "p" }, score := 0 } = 0 ∧
    compute_risk_score
        { ctx := { package_name := "p"
                   vulns := some { raw := some { matchesList := some [] } } }
          score := 0 } = 0 := by
  refine ⟨?_, ?_, ?_⟩
  · rw [claim_C1_risk_score_weighted_dedup_sum.1]
    decide
  · exact claim_C1_risk_score_weighted_dedup_sum.2.1 _ rfl
  · exact claim_C1_risk_score_weighted_dedup_sum.2.2 _ _ _ rfl rfl rfl

/-- C10: the risk score is a function of `ctx.vulns` alone — contexts with
equal vulnerability reports score equally whatever their other fields (in
particular findings appended on fatal errors never change the score) — and
an absent or empty report always scores 0. -/
theorem claim_C10_score_determined_by_vulns :
    (∀ (c1 c2 : Context) (s1 s2 : Nat) (p1 p2 : Option String),
      c1.vulns = c2.vulns →
      compute_risk_score { ctx := c1, score := s1, pdf_path := p1 } =
        compute_risk_score { ctx := c2, score := s2, pdf_path := p2 }) ∧
    (∀ (c : Context) (s : Nat) (p : Option String), c.vulns = none →
      compute_risk_score { ctx := c, score := s, pdf_path := p } = 0) ∧
    (∀ (c : Context) (s : Nat) (p : Option String) (vr : VulnReport)
      (d : VulnData), c.vulns = some vr → vr.raw = some d →
      d.matchesList.getD [] = [] →
      compute_risk_score { ctx := c, score := s, pdf_path := p } = 0) := by
  refine ⟨?_, ?_, ?_⟩
  · intro c1 c2 s1 s2 p1 p2 h
    unfold compute_risk_score
    simp only
    rw [h]
  · intro c s p h
    unfold compute_risk_score
    simp only
    rw [h]
  · intro c s p vr d hv hr hm
    unfold compute_risk_score
    simp only [hv, hr, hm]
    rfl

/-- C10 witness: a context carrying a critical pipeline Finding and a
different package scores exactly like a bare context with the same (empty)
report, and a report-free context scores 0. -/
theorem claim_C10_score_determined_by_vulns_witness :
    compute_risk_score
        { ctx := { package_name := "p"
                   findings := [{ source := "pipeline", message := "boom",
                                  severity := "critical" }]
                   vulns := some { raw := some dEx } }
          score := 7 } =
      compute_risk_score
        { ctx := { package_name := "q", vulns := some { raw := some dEx } }
          score := 0 } ∧
    compute_risk_score { ctx := { package_name := "p" }, score := 3 } = 0 := by
  refine ⟨?_, ?_⟩
  · exact claim_C10_score_determined_by_vulns.1 _ _ 7 0 none none rfl
  · exact claim_C10_score_determined_by_vulns.2.1 _ 3 none rfl

/-- C7: the severity mapping is total — every input (absent, empty, any
casing) yields exactly one of the five pairwise-distinct canonical levels —
and any input whose lowercasing is not one of critical/high/medium/low maps
to `"info"`, as do the absent and empty inputs. -/
theorem claim_C7_severity_mapping_total :
    (∀ g : Option String, mapGrypeSeverity g ∈ severityLevels) ∧
    severityLevels.Nodup ∧
    (∀ s : String,
      strLower s ∉ (["critical", "high", "medium", "low"] : List String) →
      mapGrypeSeverity (some s) = "info") ∧
    mapGrypeSeverity none = "info" ∧
    mapGrypeSeverity (some "") = "info" := by
  refine ⟨?_, by decide, ?_, by decide, by decide⟩
  · intro g
    cases g with
    | none => decide
    | some s =>
      simp only [mapGrypeSeverity]
      split_ifs <;> simp [severityLevels]
  · intro s h
    simp only [List.mem_cons, List.not_mem_nil, or_false, not_or] at h
    obtain ⟨h1, h2, h3, h4⟩ := h
    by_cases hs : s = ""
    · subst hs; decide
    · simp only [mapGrypeSeverity, if_neg hs]
      rw [if_neg h1, if_neg h2, if_neg h3, if_neg h4]

/-- C7 witness: the scanner values `"Negligible"`, `"unknown"` and a casing
variant `"HIGH"` behave as specified. -/
theorem claim_C7_severity_mapping_total_witness :
    mapGrypeSeverity (some "Negligible") = "info" ∧
    mapGrypeSeverity (some "unknown") = "info" ∧
    mapGrypeSeverity (some "HIGH") ∈ severityLevels := by
  refine ⟨?_, ?_, ?_⟩
  · exact claim_C7_severity_mapping_total.2.2.1 "Negligible" (by decide)
  · exact claim_C7_severity_mapping_total.2.2.1 "unknown" (by decide)
  · exact claim_C7_severity_mapping_total.1 (some "HIGH")

/-- C2: when a task raises the fatal signal, the executor ignores every
later task of the chain (the result is the same for any tail), appends
exactly one critical Finding — its source being the error's source, or
`"pipeline"` when that is absent or empty — and immediately returns an
`AuditResult` built from the partial context, scored from that context, with
no report path; on task success the executor simply steps to the rest of the
chain. -/
theorem claim_C2_fatal_error_short_circuit :
    (∀ (t : TaskModel) (rest : List TaskModel) (ctx ctxErr : Context)
      (msg : String) (src : Option String),
      t.run ctx = .error (.fatal msg src, ctxErr) →
      runTasks (t :: rest) ctx =
        .ok { ctx := { ctxErr with
                findings := ctxErr.findings ++ [fatalFinding msg src] }
              score := compute_risk_score
                { ctx := { ctxErr with
                    findings := ctxErr.findings ++ [fatalFinding msg src] }
                  score := 0, pdf_path := none }
              pdf_path := none }) ∧
    (∀ (msg : String), (fatalFinding msg none).severity = "critical" ∧
      (fatalFinding msg none).source = "pipeline") ∧
    (∀ (msg s : String), s ≠ "" →
      (fatalFinding msg (some s)).severity = "critical" ∧
      (fatalFinding msg (some s)).source = s) ∧
    (∀ (t : TaskModel) (rest : List TaskModel) (ctx ctxNext : Context),
      t.run ctx = .ok ctxNext →
      runTasks (t :: rest) ctx = runTasks rest ctxNext) := by
  refine ⟨?_, ?_, ?_, ?_⟩
  · intro t rest ctx ctxErr msg src h
    rw [runTasks, h]
  · intro msg
    exact ⟨rfl, rfl⟩
  · intro msg s hs
    refine ⟨rfl, ?_⟩
    simp [fatalFinding, hs]
  · intro t rest ctx ctxNext h
    rw [runTasks, h]

/-- A task that always raises the fatal signal attributing itself. -/
def fatalTask : TaskModel :=
  { name := "task3"
    run := fun c => .error (.fatal "tool missing" (some "task3"), c) }

/-- A task that returns the context unchanged. -/
def okTask : TaskModel :=
  { name := "ok", run := fun c => .ok c }

/-- C2 witness: in the chain `task3 :: [ok, ok]` over a bare context, the
fatal task short-circuits to a partial result carrying exactly one critical
Finding sourced `"task3"`, score 0 and no report path. -/
theorem claim_C2_fatal_error_short_circuit_witness :
    runTasks [fatalTask, okTask, okTask] { package_name := "p" } =
      .ok { ctx := { package_name := "p"
                     findings := [fatalFinding "tool missing" (some "task3")] }
            score := compute_risk_score
              { ctx := { package_name := "p"
                         findings := [fatalFinding "tool missing" (some "task3")] }
                score := 0, pdf_path := none }
            pdf_path := none } ∧
    (fatalFinding "tool missing" (some "task3")).severity = "critical" ∧
    (fatalFinding "tool missing" (some "task3")).source = "task3" := by
  refine ⟨?_, ?_⟩
  · exact claim_C2_fatal_error_short_circuit.1 fatalTask [okTask, okTask]
      { package_name := "p" } { package_name := "p" } "tool missing"
      (some "task3") rfl
  · exact claim_C2_fatal_error_short_circuit.2.2.1 "tool missing" "task3"
      (by decide)

/-- C4 counterexample: on a context whose `repo_source` is the unknown
`"maven"`, `run_pipeline` raises `ValueError` to its caller instead of
returning an `AuditResult` — the claim's "returns a well-formed result for
every input context, and no exception escapes" is false. -/
theorem claim_C4_counterexample_valueError_escapes :
    run_pipeline (fun _ => none)
        { package_name := "pkg", repo_source := some "maven" } =
      .error (.valueError "Unknown repo_source: maven",
        { package_name := "pkg", repo_source := some "maven" }) := by
  rfl

/-- C4 (amended): for a context whose `repo_source` is set, non-empty and
known, whose chain fully resolves in the registry, and whose tasks fail only
via the fatal signal, the executor catches the fatal signal and returns a
well-formed `AuditResult`; configuration errors (unset or unknown
`repo_source`, unresolvable chain) instead raise `ValueError`, and task
exceptions other than the fatal signal propagate. -/
theorem claim_C4_amended_executor_returns_result :
    ∀ (registry : String → Option TaskModel) (ctx : Context) (rs : String)
      (chain : List String),
      ctx.repo_source = some rs → rs ≠ "" →
      CHAINS.lookup rs = some chain →
      (∀ n ∈ chain, (registry n).isSome) →
      (∀ (t : TaskModel), (∃ n ∈ chain, registry n = some t) →
        ∀ (c cErr : Context) (e : PyExc),
          t.run c = .error (e, cErr) → ∃ m s, e = .fatal m s) →
      (run_pipeline registry ctx).isOk = true := by
  intro registry ctx rs chain hrepo hrs hchain hresolve hfatal
  suffices h : ∃ result : AuditResult, run_pipeline registry ctx = .ok result by
    obtain ⟨r, hr⟩ := h
    rw [hr]
    rfl
  unfold run_pipeline
  rw [hrepo]
  simp only [if_neg hrs, hchain]
  have hmiss : (chain.map (fun n => (n, registry n))).filter
      (fun p => p.2.isNone) = [] := by
    rw [List.filter_eq_nil_iff]
    intro p hp
    obtain ⟨n, hn, hpn⟩ := List.mem_map.mp hp
    subst hpn
    simpa [Option.isNone_iff_eq_none] using
      Option.isSome_iff_ne_none.mp (hresolve n hn)
  rw [hmiss]
  simp only [List.map_nil, List.isEmpty_nil, if_true]
  apply runTasks_total
  intro t ht
  apply hfatal
  obtain ⟨p, hp, hpt⟩ := List.mem_filterMap.mp ht
  obtain ⟨n, hn, hpn⟩ := List.mem_map.mp hp
  exact ⟨n, hn, by rw [← hpt, ← hpn]⟩

/-- C4-amended witness: a registry resolving every task name to a no-op
task yields a well-formed result for a `pypi` context. -/
theorem claim_C4_amended_executor_returns_result_witness :
    (run_pipeline (fun _ => some okTask)
      { package_name := "pkg", repo_source := some "pypi" }).isOk = true := by
  apply claim_C4_amended_executor_returns_result (fun _ => some okTask) _
    "pypi" ["fetch_pypi", "download_pypi", "generate_sbom",
            "scan_vulnerabilities", "run_analyses", "extract_report_data",
            "generate_pdf_report"] rfl (by decide) (by rfl)
  · intro n _
    rfl
  · intro t ht c cErr e hrun
    obtain ⟨n, _, hn⟩ := ht
    have ht' : t = okTask := by
      simpa using hn.symm
    subst ht'
    simp [okTask] at hrun

/-- Context in which the vulnerability-scan task's SBOM precondition holds. -/
def ctxScanReady : Context :=
  { package_name := "pkg"
    sbom := some { raw := some {}, file_path := some "sbom.json" } }

/-- C5 counterexample: with the scanner absent (`GrypeNotFoundError`),
`ScanVulnerabilities.run` does NOT raise the fatal signal: it returns
normally (`ok`, so the chain continues) with a critical Finding appended and
an empty vulnerability report substituted — the claim's "holds for every
task in the chain that invokes an external tool" is false for the scanner. -/
theorem claim_C5_counterexample_scanner_absent_continues :
    scanVulnerabilitiesRun (.notFound "Grype CLI not found") ctxScanReady =
      .ok { ctxScanReady with
        findings := [{ source := "scan_vulnerabilities",
                       message := "Grype not available: Grype CLI not found",
                       severity := "critical" }],
        vulns := some { raw := some { matchesList := some [] } } } := by
  rfl

/-- C5 (amended): when the SBOM generator is absent, `GenerateSbom.run`
records the event as a critical Finding and raises the fatal signal (so the
executor halts the chain and yields a partial result, by C2's behaviour);
when the vulnerability scanner is absent, `ScanVulnerabilities.run` records
a critical Finding but continues with an empty report instead of halting. -/
theorem claim_C5_amended_tool_absent :
    (∀ (ctx : Context) (writeRes : Option String) (msg : String),
      downloadMissing ctx = false →
      generateSbomRun (.notFound msg) writeRes ctx =
        .error (.fatal ("SBOM generation failed: " ++ msg)
          (some "generate_sbom"),
          { ctx with findings := ctx.findings ++
            [{ source := "generate_sbom", message := msg,
               severity := "critical" }] })) ∧
    (∀ (ctx : Context) (msg : String),
      sbomFileMissing ctx = false →
      scanVulnerabilitiesRun (.notFound msg) ctx =
        .ok { ctx with
          findings := ctx.findings ++
            [{ source := "scan_vulnerabilities",
               message := "Grype not available: " ++ msg,
               severity := "critical" }],
          vulns := some { raw := some { matchesList := some [] } } }) := by
  constructor
  · intro ctx writeRes msg h
    unfold generateSbomRun
    rw [h]
    rfl
  · intro ctx msg h
    unfold scanVulnerabilitiesRun
    rw [h]
    rfl

/-- C5-amended witness: concrete contexts satisfying the preconditions,
with the Syft path raising fatal and the Grype path continuing. -/
theorem claim_C5_amended_tool_absent_witness :
    generateSbomRun (.notFound "Syft CLI not found") none
        { package_name := "pkg",
          download_info := some
            { url := "u", filename := "f", package_type := "sdist",
              local_path := some "/tmp/f" } } =
      .error (.fatal "SBOM generation failed: Syft CLI not found"
        (some "generate_sbom"),
        { package_name := "pkg",
          download_info := some
            { url := "u", filename := "f", package_type := "sdist",
              local_path := some "/tmp/f" },
          findings := [{ source := "generate_sbom",
                         message := "Syft CLI not found",
                         severity := "critical" }] }) ∧
    scanVulnerabilitiesRun (.notFound "Grype CLI not found") ctxScanReady =
      .ok { ctxScanReady with
        findings := [{ source := "scan_vulnerabilities",
                       message := "Grype not available: Grype CLI not found",
                       severity := "critical" }],
        vulns := some { raw := some { matchesList := some [] } } } := by
  constructor
  · exact claim_C5_amended_tool_absent.1
      { package_name := "pkg",
        download_info := some
          { url := "u", filename := "f", package_type := "sdist",
            local_path := some "/tmp/f" } }
      none "Syft CLI not found" (by decide)
  · exact claim_C5_amended_tool_absent.2 ctxScanReady "Grype CLI not found"
      (by decide)

/-- C6: the vulnerability processor groups raw matches by the composite key
`(vulnerability id, artifact name, artifact version)`: `total_matches` is
the raw match count, `unique_vulnerabilities` is the number of distinct
keys, every group consists of exactly the raw matches carrying its key (so
`k` matches sharing a key collapse into one group of size `k`), and each
unique vulnerability records `component_count` equal to its group's size. -/
theorem claim_C6_dedup_grouping :
    ∀ d : VulnData,
      (parseVulnerabilities d).total_matches =
        (d.matchesList.getD []).length ∧
      (parseVulnerabilities d).unique_count =
        ((d.matchesList.getD []).map matchKey).toFinset.card ∧
      (∀ (k : String × String × String) (l : List GrypeMatch),
        (k, l) ∈ vulnGroups (d.matchesList.getD []) →
        l = (d.matchesList.getD []).filter (fun m => matchKey m = k) ∧
        l ≠ []) ∧
      (parseVulnerabilities d).unique_vulns.map
          (fun u => u.component_count) =
        (vulnGroups (d.matchesList.getD [])).map (fun g => g.2.length) := by
  intro d
  refine ⟨rfl, ?_, ?_, ?_⟩
  · exact vulnGroups_length (d.matchesList.getD [])
  · intro k l h
    exact vulnGroups_mem_filter (d.matchesList.getD []) k l h
  · show ((vulnGroups (d.matchesList.getD [])).map uniqueVulnOf).map
        (fun u => u.component_count) = _
    rw [List.map_map]
    rfl

/-- C6 witness: scenario 1 — of the three raw matches the duplicated
`(CVE-1, a, 1)` pair forms one group of size 2 (so unique count 2 = 3 − 1),
and the group content is exactly the matches with that key. -/
theorem claim_C6_dedup_grouping_witness :
    (parseVulnerabilities dEx).total_matches = [mEx1, mEx1, mEx3].length ∧
    [mEx1, mEx1] =
      (dEx.matchesList.getD []).filter
        (fun m => matchKey m = ("CVE-1", "a", "1")) ∧
    ([mEx1, mEx1] : List GrypeMatch) ≠ [] := by
  refine ⟨(claim_C6_dedup_grouping dEx).1, ?_⟩
  exact (claim_C6_dedup_grouping dEx).2.2.1 ("CVE-1", "a", "1") [mEx1, mEx1]
    (by decide)

/-- C3 (divergence exhibit): on scenario 2's strictly linear 3-chain
(components `{A, B, C}`, edges `A → B`, `B → C`) the analyzer does report
one root, one direct and one transitive dependency, but `max_depth = 3`,
not the `n − 1 = 2` the claim states: the BFS enqueues the root's direct
children already tagged depth 2 and maximises over tags on dequeue, so a
chain of `n` components yields depth `n` — contradicting the source's own
comment ("Start with depth 1 for direct dependencies") and its metadata
fallback, which assigns depth 1 to a direct-only graph. -/
theorem claim_C3_linear_chain_depth_eval :
    analyzeSbomStructure chainSbom none =
      { total_components := 3, max_depth := 3, direct_dependencies := 1,
        transitive_dependencies := 1, root_components := 1,
        use_metadata_fallback := false } := by
  decide

/-- C8 counterexample: with an empty component list, an empty edge list and
three declared dependencies, the fallback is NOT taken (the source guards it
with `if not dependencies and components:`): the analyzer reports
`use_metadata_fallback = false` and `direct_dependencies = 0`, not 3 —
refuting the claim's "whenever the edge list is empty and metadata declares
a dependency". -/
theorem claim_C8_counterexample_empty_components :
    analyzeSbomStructure { components := [], dependencies := [] }
        (some ctx3) =
      { total_components := 0, max_depth := 0, direct_dependencies := 0,
        transitive_dependencies := 0, root_components := 0,
        use_metadata_fallback := false } := by
  decide

/-- C8 (amended): whenever the dependency-edge list is empty, the component
list is NON-EMPTY, and the package metadata declares at least one non-empty
dependency string, the analyzer takes the metadata fallback: it sets
`use_metadata_fallback`, reports `direct_dependencies` equal to the count of
non-empty declared strings, `max_depth = 1` and
`transitive_dependencies = 0`; in particular scenario 3 (one library
component, three declared dependencies) reports 3/1/0. -/
theorem claim_C8_amended_metadata_fallback :
    (∀ (sbom : SbomData) (c : Context),
      sbom.dependencies = [] → sbom.components ≠ [] →
      0 < (declaredDeps (some c)).length →
      analyzeSbomStructure sbom (some c) =
        { total_components := sbom.components.length,
          max_depth := 1,
          direct_dependencies := (declaredDeps (some c)).length,
          transitive_dependencies := 0,
          root_components := (rootsWithFallbackA sbom).length,
          use_metadata_fallback := true }) ∧
    analyzeSbomStructure
        { components := [{ bom_ref := some "X", type := some "library" }],
          dependencies := [] } (some ctx3) =
      { total_components := 1, max_depth := 1, direct_dependencies := 3,
        transitive_dependencies := 0, root_components := 1,
        use_metadata_fallback := true } := by
  constructor
  · intro sbom c hdeps hcomps hdecl
    have hde : sbom.dependencies.isEmpty = true := by
      rw [hdeps]; rfl
    have hce : sbom.components.isEmpty = false := by
      cases hc : sbom.components with
      | nil => exact absurd hc hcomps
      | cons a l => rfl
    have hdc : decide (0 < (declaredDeps (some c)).length) = true :=
      decide_eq_true hdecl
    simp only [analyzeSbomStructure, hde, hce, Bool.not_false, Bool.and_true,
      Bool.true_and, if_true, hdc, if_pos hdecl]
  · decide

/-- C8-amended witness: scenario 3's non-empty component list — one library
component, `requires_dist = ["a", "b", "c"]` — takes the fallback with
direct count 3, depth 1 and no transitive dependencies. -/
theorem claim_C8_amended_metadata_fallback_witness :
    analyzeSbomStructure
        { components := [{ bom_ref := some "X", type := some "library" }],
          dependencies := [] } (some ctx3) =
      { total_components :=
          ([{ bom_ref := some "X", type := some "library" }] :
            List SbomComponent).length,
        max_depth := 1,
        direct_dependencies := (declaredDeps (some ctx3)).length,
        transitive_dependencies := 0,
        root_components := (rootsWithFallbackA
          { components := [{ bom_ref := some "X", type := some "library" }],
            dependencies := [] }).length,
        use_metadata_fallback := true } :=
  claim_C8_amended_metadata_fallback.1
    { components := [{ bom_ref := some "X", type := some "library" }],
      dependencies := [] } ctx3 rfl (by decide) (by decide)

/-- C9: the per-root breadth-first traversal terminates on every finite
dependency graph, cycles and self-cycles included: running the loop with any
fuel at least the variant `bfsMeasure` (unreached children plus queue
length) gives the result of running it with exactly the variant — the
unbounded source loop stops within `bfsMeasure` iterations, the per-root
`seen` set admitting each node at most once — and on the self-cycle graph
`R → A, A → A` the traversal from `R` visits `A` exactly once, returning
depth 2 with no transitive set and no divergence. -/
theorem claim_C9_bfs_terminates_on_cycles :
    (∀ (deps : List SbomDependency) (start : String) (fuel : Nat),
      bfsMeasure deps (bfsInitQueue deps start) (bfsInitSeen deps start) ≤
        fuel →
      bfsLoop deps fuel (bfsInitQueue deps start) (bfsInitSeen deps start)
          ∅ 1 =
        bfsLoop deps
          (bfsMeasure deps (bfsInitQueue deps start)
            (bfsInitSeen deps start))
          (bfsInitQueue deps start) (bfsInitSeen deps start) ∅ 1) ∧
    bfs_depth cycleDeps "R" = (2, {"A"}, ∅) := by
  constructor
  · intro deps start fuel hfuel
    exact bfsLoop_fuel deps fuel _ (bfsInitQueue deps start)
      (bfsInitSeen deps start) ∅ 1 hfuel le_rfl
  · decide

/-- C9 witness: on the self-cycle graph the loop run with surplus fuel 10
equals the loop run with the variant — the cyclic traversal halts. -/
theorem claim_C9_bfs_terminates_on_cycles_witness :
    bfsLoop cycleDeps 10 (bfsInitQueue cycleDeps "R")
        (bfsInitSeen cycleDeps "R") ∅ 1 =
      bfsLoop cycleDeps
        (bfsMeasure cycleDeps (bfsInitQueue cycleDeps "R")
          (bfsInitSeen cycleDeps "R"))
        (bfsInitQueue cycleDeps "R") (bfsInitSeen cycleDeps "R") ∅ 1 :=
  claim_C9_bfs_terminates_on_cycles.1 cycleDeps "R" 10 (by decide)

end Vibanalyz
